import Mathlib

/-
Verification of the session/exercise state machine and LLM content pipeline
of the Prompt Dojo trainer (src/app.py), as a shallow embedding in Lean.

Python strings are modelled as `List Char` (with `String` wrappers at the
interfaces); `str.strip`, `str.split`, `str.startswith`, `in` and
`json.loads` are given executable models below.  Provider calls are opaque:
functions that consume a provider response take the returned text as an
explicit argument, and the injected randomness of `random.choice` is an
explicit argument as well.
-/

set_option maxRecDepth 10000

namespace PromptDojo

/-! ## Python string primitives on `List Char` -/

/-- Whitespace stripped by Python `str.strip()` (the ASCII part, which is all
that occurs in the data handled by the app). -/
def isPyWs (c : Char) : Bool :=
  c == ' ' || c == '\t' || c == '\n' || c == '\r' || c == '\x0b' || c == '\x0c'

/-- Model of Python `str.lstrip()`. -/
def lstripL (l : List Char) : List Char := l.dropWhile isPyWs

/-- Model of Python `str.rstrip()`. -/
def rstripL (l : List Char) : List Char := (l.reverse.dropWhile isPyWs).reverse

/-- Model of Python `str.strip()`. -/
def pyStripL (l : List Char) : List Char := rstripL (lstripL l)

/-- `str.strip()` on `String`. -/
def pyStrip (s : String) : String := String.mk (pyStripL s.data)

/-- Model of Python `str.startswith(pre)`: does `l` begin with `pre`? -/
def leadsWith : List Char → List Char → Bool
  | [], _ => true
  | _ :: _, [] => false
  | a :: as2, b :: bs => if a = b then leadsWith as2 bs else false

/-- Model of Python `sep in l` (substring test). -/
def containsSubL (sep : List Char) : List Char → Bool
  | [] => leadsWith sep []
  | a :: s => leadsWith sep (a :: s) || containsSubL sep s

/-- Everything strictly before the first occurrence of `sep` (the whole list
when `sep` does not occur). -/
def takeUntilL (sep : List Char) : List Char → List Char
  | [] => []
  | a :: s => if leadsWith sep (a :: s) then [] else a :: takeUntilL sep s

/-- Everything strictly after the first occurrence of `sep` (empty when `sep`
does not occur). -/
def afterFirstL (sep : List Char) : List Char → List Char
  | [] => []
  | a :: s => if leadsWith sep (a :: s) then (a :: s).drop sep.length else afterFirstL sep s

/-- Fuelled model of Python `str.split(sep)` for a non-empty `sep`:
repeatedly emit the segment before the next occurrence and continue after
it.  Fuel `l.length + 1` always suffices because each occurrence consumes at
least one character. -/
def pySplitFuelL (sep : List Char) : Nat → List Char → List (List Char)
  | 0, l => [l]
  | fuel + 1, l =>
    if containsSubL sep l then
      takeUntilL sep l :: pySplitFuelL sep fuel (afterFirstL sep l)
    else [l]

/-- Model of Python `str.split(sep)` for non-empty `sep`. -/
def pySplitL (sep l : List Char) : List (List Char) :=
  pySplitFuelL sep (l.length + 1) l

/-! ## JSON values and a model of Python `json.loads` -/

/-- JSON values as produced by `json.loads`.  Numeric literals keep their
source text (the app never computes with parsed numbers), and objects are
key/value lists in insertion order. -/
inductive Json where
  | null : Json
  | bool : Bool → Json
  | num : String → Json
  | str : String → Json
  | arr : List Json → Json
  | obj : List (String × Json) → Json

/-- Dictionary lookup on a parsed object (`d[k]` when the key is present;
with duplicate keys the last occurrence wins, as in a Python dict built by
`json.loads`). -/
def jGet (j : Json) (k : String) : Option Json :=
  match j with
  | Json.obj kvs => kvs.foldl (fun acc kv => if kv.fst = k then some kv.snd else acc) none
  | _ => none

/-- String-valued dictionary lookup with default `""`. -/
def jGetStrD (j : Json) (k : String) : String :=
  match jGet j k with
  | some (Json.str v) => v
  | _ => ""

/-- JSON whitespace (exactly space, tab, newline, carriage return). -/
def skipJWs (l : List Char) : List Char :=
  l.dropWhile (fun c => c == ' ' || c == '\t' || c == '\n' || c == '\r')

/-- Value of one hexadecimal digit. -/
def hexVal (c : Char) : Option Nat :=
  if c.isDigit then some (c.toNat - 48)
  else if 'a' ≤ c && c ≤ 'f' then some (c.toNat - 87)
  else if 'A' ≤ c && c ≤ 'F' then some (c.toNat - 55)
  else none

/-- Value of a four-digit hexadecimal escape. -/
def hex4 (a b c d : Char) : Option Nat :=
  match hexVal a, hexVal b, hexVal c, hexVal d with
  | some x, some y, some z, some w => some (((x * 16 + y) * 16 + z) * 16 + w)
  | _, _, _, _ => none

/-- Fuelled body of a JSON string literal, after the opening quote: strict
mode as in `json.loads` (raw control characters are rejected, only the
standard escapes are accepted, `\uXXXX` surrogate pairs are combined).  Lone
surrogate escapes, which Python would keep, are rejected here since Lean
strings cannot hold them; they never occur in the data the claims are about.
Every step consumes at least one character, so fuel `length + 1` always
suffices. -/
def jStrAuxF : Nat → List Char → List Char → Option (String × List Char)
  | 0, _, _ => none
  | _ + 1, acc, '"' :: r => some (String.mk acc.reverse, r)
  | f + 1, acc, '\\' :: e :: r =>
    match e, r with
    | '"', _ => jStrAuxF f ('"' :: acc) r
    | '\\', _ => jStrAuxF f ('\\' :: acc) r
    | '/', _ => jStrAuxF f ('/' :: acc) r
    | 'b', _ => jStrAuxF f ('\x08' :: acc) r
    | 'f', _ => jStrAuxF f ('\x0c' :: acc) r
    | 'n', _ => jStrAuxF f ('\n' :: acc) r
    | 'r', _ => jStrAuxF f ('\r' :: acc) r
    | 't', _ => jStrAuxF f ('\t' :: acc) r
    | 'u', a :: b :: c :: d :: r2 =>
      match hex4 a b c d with
      | none => none
      | some n =>
        if n < 0xD800 || 0xDFFF < n then
          jStrAuxF f (Char.ofNat n :: acc) r2
        else if n ≤ 0xDBFF then
          match r2 with
          | '\\' :: 'u' :: a2 :: b2 :: c2 :: d2 :: r3 =>
            match hex4 a2 b2 c2 d2 with
            | some m =>
              if 0xDC00 ≤ m && m ≤ 0xDFFF then
                jStrAuxF f (Char.ofNat (0x10000 + (n - 0xD800) * 0x400 + (m - 0xDC00)) :: acc) r3
              else none
            | none => none
          | _ => none
        else none
    | _, _ => none
  | f + 1, acc, c :: r => if c.toNat < 32 then none else jStrAuxF f (c :: acc) r
  | _, _, [] => none

/-- Body of a JSON string literal, after the opening quote. -/
def jStrAux (acc s : List Char) : Option (String × List Char) :=
  jStrAuxF (s.length + 1) acc s

/-- Integer part of a JSON number: `0`, or a nonzero digit followed by
digits.  Returns the lexeme and the rest. -/
def parseIntPart : List Char → Option (List Char × List Char)
  | '0' :: r => some (['0'], r)
  | c :: r => if c.isDigit then some (c :: r.takeWhile Char.isDigit, r.dropWhile Char.isDigit) else none
  | [] => none

/-- Optional fractional part of a JSON number. -/
def parseFracPart : List Char → Option (List Char × List Char)
  | '.' :: r =>
    match r.takeWhile Char.isDigit with
    | [] => none
    | ds => some ('.' :: ds, r.dropWhile Char.isDigit)
  | l => some ([], l)

/-- Optional exponent part of a JSON number. -/
def parseExpPart : List Char → Option (List Char × List Char)
  | c :: r =>
    if c == 'e' || c == 'E' then
      let p := match r with
        | '+' :: r3 => ((['+'] : List Char), r3)
        | '-' :: r3 => ((['-'] : List Char), r3)
        | _ => (([] : List Char), r)
      match p.2.takeWhile Char.isDigit with
      | [] => none
      | ds => some (c :: (p.1 ++ ds), p.2.dropWhile Char.isDigit)
    else some ([], c :: r)
  | [] => some ([], [])

/-- A JSON numeric literal (also `-Infinity`, which `json.loads` accepts).
The lexeme is kept verbatim. -/
def parseNumberL (s : List Char) : Option (Json × List Char) :=
  let p := match s with
    | '-' :: r => ((['-'] : List Char), r)
    | _ => (([] : List Char), s)
  match p.2 with
  | 'I' :: r =>
    if p.1.isEmpty then none
    else if leadsWith ['n', 'f', 'i', 'n', 'i', 't', 'y'] r then
      some (Json.num (String.mk (p.1 ++ ['I', 'n', 'f', 'i', 'n', 'i', 't', 'y'])), r.drop 7)
    else none
  | _ =>
    match parseIntPart p.2 with
    | none => none
    | some (ip, r1) =>
      match parseFracPart r1 with
      | none => none
      | some (fp, r2) =>
        match parseExpPart r2 with
        | none => none
        | some (ep, r3) => some (Json.num (String.mk (p.1 ++ ip ++ fp ++ ep)), r3)

/-- Parser mode: a whole value, or the inside of an object or array. -/
inductive PMode where
  | value : PMode
  | objStart : PMode
  | objItem : List (String × Json) → PMode
  | arrStart : PMode
  | arrItem : List Json → PMode

/-- Fuelled recursive-descent parser for JSON text, strict as `json.loads`
(it also accepts the Python extensions `NaN`, `Infinity`, `-Infinity`).
Every recursive call runs on a strictly shorter list or follows one that
consumed input, so fuel `2 * length + 4` always suffices. -/
def pv : Nat → PMode → List Char → Option (Json × List Char)
  | 0, _, _ => none
  | fuel + 1, PMode.value, s =>
    match skipJWs s with
    | '{' :: r => pv fuel PMode.objStart r
    | '[' :: r => pv fuel PMode.arrStart r
    | '"' :: r =>
      match jStrAux [] r with
      | some (sv, r2) => some (Json.str sv, r2)
      | none => none
    | 't' :: r => if leadsWith ['r', 'u', 'e'] r then some (Json.bool true, r.drop 3) else none
    | 'f' :: r => if leadsWith ['a', 'l', 's', 'e'] r then some (Json.bool false, r.drop 4) else none
    | 'n' :: r => if leadsWith ['u', 'l', 'l'] r then some (Json.null, r.drop 3) else none
    | 'N' :: r => if leadsWith ['a', 'N'] r then some (Json.num "NaN", r.drop 2) else none
    | 'I' :: r =>
      if leadsWith ['n', 'f', 'i', 'n', 'i', 't', 'y'] r then
        some (Json.num "Infinity", r.drop 7)
      else none
    | s2 => parseNumberL s2
  | fuel + 1, PMode.objStart, s =>
    match skipJWs s with
    | '}' :: r => some (Json.obj [], r)
    | s2 => pv fuel (PMode.objItem []) s2
  | fuel + 1, PMode.objItem acc, s =>
    match skipJWs s with
    | '"' :: r =>
      match jStrAux [] r with
      | none => none
      | some (k, r2) =>
        match skipJWs r2 with
        | ':' :: r3 =>
          match pv fuel PMode.value r3 with
          | none => none
          | some (v, r4) =>
            match skipJWs r4 with
            | ',' :: r5 => pv fuel (PMode.objItem (acc ++ [(k, v)])) r5
            | '}' :: r5 => some (Json.obj (acc ++ [(k, v)]), r5)
            | _ => none
        | _ => none
    | _ => none
  | fuel + 1, PMode.arrStart, s =>
    match skipJWs s with
    | ']' :: r => some (Json.arr [], r)
    | s2 => pv fuel (PMode.arrItem []) s2
  | fuel + 1, PMode.arrItem acc, s =>
    match pv fuel PMode.value s with
    | none => none
    | some (v, r) =>
      match skipJWs r with
      | ',' :: r2 => pv fuel (PMode.arrItem (acc ++ [v])) r2
      | ']' :: r2 => some (Json.arr (acc ++ [v]), r2)
      | _ => none

/-- Model of Python `json.loads`: parse one value, allow trailing
whitespace, and fail (return `none`, the model of `JSONDecodeError`) on
anything else. -/
def json_loads (s : String) : Option Json :=
  match pv (2 * s.data.length + 4) PMode.value s.data with
  | some (v, rest) => if (skipJWs rest).isEmpty then some v else none
  | none => none

/-! ## Constants from src/app.py -/

def QUIZ_LENGTH : Nat := 10

/-- The fixed demo A/B question (`DEMO_AB_QUESTION` in src/app.py). -/
def DEMO_AB_QUESTION : Json := Json.obj
  [ ("scenario", Json.str "You need to write a prompt that helps summarize technical documentation for a general audience."),
    ("weak_prompt", Json.str "Summarize this technical documentation in simple terms. Make it exactly 5 paragraphs long. Use bullet points for each section. Include all technical specifications. Target audience is general public. Remove all jargon. Keep the technical accuracy. Make it engaging and fun to read."),
    ("strong_prompt", Json.str "Summarize this technical documentation for a general audience with no technical background. Focus on what the product DOES and why it matters, not how it works internally. Use analogies to everyday objects where helpful. Aim for 2-3 short paragraphs. Avoid jargon - if a technical term is essential, briefly define it."),
    ("explanation", Json.str "The weak prompt has contradictory instructions (include all technical specs BUT remove jargon and target general public), over-specifies format (exactly 5 paragraphs with bullet points), and asks for incompatible goals (technical accuracy AND fun to read for non-technical readers). The strong prompt has a clear, consistent goal and appropriate constraints without contradictions.") ]

/-- The fixed demo challenge scenario (`DEMO_CHALLENGE` in src/app.py). -/
def DEMO_CHALLENGE : Json := Json.obj
  [ ("title", Json.str "Customer Support Response"),
    ("scenario", Json.str "You work for a software company and need to write a prompt that helps generate responses to customer support tickets. The responses should acknowledge the customer\x27s issue, provide a solution or next steps, and maintain a helpful tone."),
    ("ideal_prompt", Json.str "You are a friendly customer support agent for TechCorp software. A customer has submitted a support ticket. Write a response that: 1) Acknowledges their issue with empathy, 2) Provides a clear solution or next steps, 3) Offers additional help if needed. Keep the tone professional but warm. Use simple language avoiding technical jargon unless necessary. Response should be 3-5 sentences. Format: Start with a greeting using their name, end with your name \x27Alex from TechCorp Support\x27."),
    ("key_elements", Json.arr
      [ Json.str "Role/persona assignment",
        Json.str "Clear structure (acknowledge, solve, offer help)",
        Json.str "Tone and language guidelines",
        Json.str "Format specifications" ]) ]

/-! ## Content generation pipeline (`generate_ab_question` / `generate_challenge`) -/

/-- The backtick character. -/
def bq : Char := Char.ofNat 96

/-- The triple-backtick code fence. -/
def fenceL : List Char := [bq, bq, bq]

/-- The `json` language tag sometimes following an opening fence. -/
def jsonTagL : List Char := ['j', 's', 'o', 'n']

/-- The response clean-up shared by `generate_ab_question` and
`generate_challenge` in src/app.py:

    response = response.strip()
    if response.startswith("```"):
        response = response.split("```")[1]
        if response.startswith("json"):
            response = response[4:]
    response = response.strip()

The index `[1]` is safe in Python because `startswith` guarantees at least
one occurrence; the model uses `getD 1 []` accordingly. -/
def cleanL (r : List Char) : List Char :=
  let r1 := pyStripL r
  let r2 :=
    if leadsWith fenceL r1 then
      let p := (pySplitL fenceL r1).getD 1 []
      if leadsWith jsonTagL p then p.drop 4 else p
    else r1
  pyStripL r2

/-- `cleanL` on `String`. -/
def clean_response (r : String) : String := String.mk (cleanL r.data)

/-- Model of `generate_ab_question` in src/app.py.  The provider response
text (the return value of `call_llm`, which is an `Error: ...` string when
the call failed) is passed explicitly.  The Python function is total: the
only exception the `try` body can raise is `json.JSONDecodeError`, which is
caught and answered with the fixed demo record. -/
def generate_ab_question (demo_mode : Bool) (response : String) : Json :=
  if demo_mode then DEMO_AB_QUESTION
  else
    match json_loads (clean_response response) with
    | some j => j
    | none => DEMO_AB_QUESTION

/-- Model of `generate_challenge` in src/app.py (same clean-up and fallback
structure as `generate_ab_question`, with `DEMO_CHALLENGE` as the fixed
record). -/
def generate_challenge (demo_mode : Bool) (response : String) : Json :=
  if demo_mode then DEMO_CHALLENGE
  else
    match json_loads (clean_response response) with
    | some j => j
    | none => DEMO_CHALLENGE

/-! ## Score extraction (duplicated verbatim in `render_module2` and
`render_module3` of src/app.py) -/

/-- The literal score marker `"TOTAL:"`. -/
def totalMarkL : List Char := ['T', 'O', 'T', 'A', 'L', ':']

/-- The slash terminating the score. -/
def slashL : List Char := ['/']

/-- Value of a list of decimal digits, as computed by Python `int` on a
non-empty all-digit string. -/
def digitsVal (l : List Char) : Nat := l.foldl (fun n c => n * 10 + (c.toNat - 48)) 0

/-- Model of the score extraction in src/app.py:

    if "TOTAL:" in result:
        score_part = result.split("TOTAL:")[1].split("/")[0].strip()
        score = int(''.join(filter(str.isdigit, score_part)))

wrapped in `try: ... except: pass`, so a failing `int` (empty digit string)
yields no score.  `none` models the absent score. -/
def extract_score (report : String) : Option Nat :=
  if containsSubL totalMarkL report.data then
    let seg1 := (pySplitL totalMarkL report.data).getD 1 []
    let seg2 := (pySplitL slashL seg1).getD 0 []
    let ds := (pyStripL seg2).filter Char.isDigit
    if ds.isEmpty then none else some (digitsVal ds)
  else none

/-- Score extraction exactly as the claim words it: the substring after the
first `"TOTAL:"` up to (not including) the next `"/"`, digit-filtered and
parsed.  This definition follows the specification text, to be compared
with `extract_score`, which follows the source. -/
def extract_score_claim (report : String) : Option Nat :=
  if containsSubL totalMarkL report.data then
    let seg := takeUntilL slashL (afterFirstL totalMarkL report.data)
    let ds := seg.filter Char.isDigit
    if ds.isEmpty then none else some (digitsVal ds)
  else none

/-- Score extraction as the amended claim words it: the substring after the
first `"TOTAL:"` truncated at the next `"TOTAL:"` (if any) and then at the
next `"/"`, digit-filtered and parsed.  This definition follows the amended
specification text, to be compared with `extract_score`, which follows the
source. -/
def extract_score_amended (report : String) : Option Nat :=
  if containsSubL totalMarkL report.data then
    let seg := takeUntilL slashL (takeUntilL totalMarkL (afterFirstL totalMarkL report.data))
    let ds := seg.filter Char.isDigit
    if ds.isEmpty then none else some (digitsVal ds)
  else none

/-! ## Session state and transitions -/

/-- One entry of the analysis history (`render_module3` in src/app.py). -/
structure HistoryEntry where
  prompt : String
  full_prompt : String
  result : String
  score : Option Nat
  timestamp : String

/-- The Streamlit session state, with exactly the keys initialised by
`init_session_state` in src/app.py. -/
structure SessionState where
  api_key : String
  api_provider : String
  demo_mode : Bool
  api_validated : Bool
  lesson_selected : Option String
  quiz_score : Nat
  quiz_index : Nat
  module_unlocked : Bool
  show_feedback : Bool
  last_choice_correct : Option Bool
  last_explanation : String
  current_question : Option Json
  correct_side : Option String
  challenge_scenario : Option Json
  challenge_result : Option String
  challenge_graded : Bool
  gemini_model : Option String
  grade_my_prompt_result : Option String
  grade_my_prompt_graded : Bool
  analysis_history : List HistoryEntry

/-- The defaults of `init_session_state` in src/app.py. -/
def init_session_state : SessionState :=
  { api_key := "", api_provider := "OpenAI", demo_mode := false, api_validated := false,
    lesson_selected := none, quiz_score := 0, quiz_index := 0, module_unlocked := false,
    show_feedback := false, last_choice_correct := none, last_explanation := "",
    current_question := none, correct_side := none, challenge_scenario := none,
    challenge_result := none, challenge_graded := false, gemini_model := none,
    grade_my_prompt_result := none, grade_my_prompt_graded := false, analysis_history := [] }

/-- Model of `handle_answer` in src/app.py.  Python reads
`current_question["explanation"]`, which raises when the question is absent
or lacks the key; the transition is only ever invoked (see `select_click`)
on states showing a question, and the theorems additionally assume the
shown question carries the key, where this total model agrees with the
source. -/
def handle_answer (choice : String) (s : SessionState) : SessionState :=
  { s with
    last_choice_correct := some (decide (some choice = s.correct_side)),
    last_explanation := jGetStrD (s.current_question.getD Json.null) "explanation",
    quiz_score := if some choice = s.correct_side then s.quiz_score + 1 else s.quiz_score,
    show_feedback := true }

/-- Model of `advance_quiz` in src/app.py. -/
def advance_quiz (s : SessionState) : SessionState :=
  { s with
    quiz_index := s.quiz_index + 1,
    show_feedback := false,
    last_choice_correct := none,
    last_explanation := "",
    current_question := none,
    correct_side := none,
    module_unlocked := if QUIZ_LENGTH ≤ s.quiz_index + 1 then true else s.module_unlocked }

/-- Model of `reset_quiz` in src/app.py. -/
def reset_quiz (s : SessionState) : SessionState :=
  { s with
    quiz_score := 0, quiz_index := 0, module_unlocked := false, show_feedback := false,
    last_choice_correct := none, last_explanation := "",
    current_question := none, correct_side := none }

/-- The GENERATE QUESTION action of `render_module1` in src/app.py,
including the guards under which the button is reachable: the API is
validated (`render_main_content`), the compare lesson is active, the quiz
is not complete, and no question is currently shown.  `response` is the
provider text consumed by `generate_ab_question`, and `side` the value of
`random.choice(["A", "B"])`. -/
def generate_question_click (response side : String) (s : SessionState) : SessionState :=
  if s.api_validated = false then s
  else if s.lesson_selected ≠ some "compare" then s
  else if QUIZ_LENGTH ≤ s.quiz_index then s
  else if s.current_question.isSome then s
  else { s with
         current_question := some (generate_ab_question s.demo_mode response),
         correct_side := some side }

/-- The SELECT A / SELECT B action of `render_module1` in src/app.py: the
buttons exist only while the quiz is not complete, a question is shown and
feedback is not yet shown, so re-submission is impossible by construction. -/
def select_click (choice : String) (s : SessionState) : SessionState :=
  if s.api_validated = false then s
  else if s.lesson_selected ≠ some "compare" then s
  else if QUIZ_LENGTH ≤ s.quiz_index then s
  else if s.current_question.isNone then s
  else if s.show_feedback then s
  else handle_answer choice s

/-- The NEXT QUESTION action of `render_module1` in src/app.py (shown only
in the feedback branch of an incomplete quiz). -/
def next_question_click (s : SessionState) : SessionState :=
  if s.api_validated = false then s
  else if s.lesson_selected ≠ some "compare" then s
  else if QUIZ_LENGTH ≤ s.quiz_index then s
  else if s.current_question.isNone then s
  else if s.show_feedback = false then s
  else advance_quiz s

/-- The RESET / RETAKE action of `render_sidebar` / `render_module1`. -/
def reset_click (s : SessionState) : SessionState := reset_quiz s

/-- The SWITCH MODE action of `render_sidebar` in src/app.py (shown only
while a lesson is selected). -/
def switch_mode_click (s : SessionState) : SessionState :=
  if s.lesson_selected.isNone then s
  else
    { reset_quiz s with
      lesson_selected := none,
      challenge_scenario := none, challenge_result := none, challenge_graded := false,
      grade_my_prompt_result := none, grade_my_prompt_graded := false }

/-- The provider radio of `render_sidebar` in src/app.py: when the chosen
provider differs from the stored one, the validation flag is cleared and
the stored key is erased. -/
def select_provider (provider : String) (s : SessionState) : SessionState :=
  if provider ≠ s.api_provider then
    { s with api_provider := provider, api_validated := false, api_key := "" }
  else
    { s with api_provider := provider }

/-- The demo-mode checkbox of `render_sidebar` in src/app.py: a change of
the flag sets `api_validated` to the new flag value. -/
def toggle_demo_click (demo_mode : Bool) (s : SessionState) : SessionState :=
  if demo_mode ≠ s.demo_mode then
    { s with demo_mode := demo_mode, api_validated := demo_mode }
  else s

/-- The GENERATE CHALLENGE action of `render_module2` in src/app.py
(reachable only with a validated API, the challenge lesson active and no
current scenario). -/
def generate_challenge_click (response : String) (s : SessionState) : SessionState :=
  if s.api_validated = false then s
  else if s.lesson_selected ≠ some "challenge" then s
  else if s.challenge_scenario.isSome then s
  else { s with
         challenge_scenario := some (generate_challenge s.demo_mode response),
         challenge_result := none,
         challenge_graded := false }

/-- The SUBMIT FOR GRADING action of `render_module2` in src/app.py: the
button is disabled for an empty prompt or an already graded scenario
(`submit_disabled = not user_prompt or st.session_state.challenge_graded`).
`report` is the text returned by `grade_prompt`. -/
def challenge_submit_click (user_prompt report : String) (s : SessionState) : SessionState :=
  if s.api_validated = false then s
  else if s.lesson_selected ≠ some "challenge" then s
  else if s.challenge_scenario.isNone then s
  else if user_prompt = "" then s
  else if s.challenge_graded then s
  else { s with challenge_result := some report, challenge_graded := true }

/-- The NEXT CHALLENGE action of `render_module2` in src/app.py (disabled
until the current scenario is graded). -/
def next_challenge_click (s : SessionState) : SessionState :=
  if s.api_validated = false then s
  else if s.lesson_selected ≠ some "challenge" then s
  else if s.challenge_scenario.isNone then s
  else if s.challenge_graded = false then s
  else { s with challenge_scenario := none, challenge_result := none, challenge_graded := false }

/-- The truncated prompt stored in a history entry
(`user_prompt[:200] + "..." if len(user_prompt) > 200 else user_prompt`). -/
def truncPrompt (p : String) : String :=
  if 200 < p.data.length then String.mk (p.data.take 200) ++ "..." else p

/-- The history entry built by `render_module3` in src/app.py. -/
def mkHistoryEntry (user_prompt result timestamp : String) : HistoryEntry :=
  { prompt := truncPrompt user_prompt,
    full_prompt := user_prompt,
    result := result,
    score := extract_score result,
    timestamp := timestamp }

/-- The ANALYZE action of `render_module3` in src/app.py (reachable only
with a validated API and the analyze lesson active, while no grading is
shown; an empty prompt only produces a warning).  `result` is the text
returned by `grade_general_prompt` and `timestamp` the formatted clock
reading.  One entry is inserted at the front of the history, which is then
truncated to its first 10 entries. -/
def analyze_submit_click (user_prompt result timestamp : String) (s : SessionState) : SessionState :=
  if s.api_validated = false then s
  else if s.lesson_selected ≠ some "grade" then s
  else if s.grade_my_prompt_graded then s
  else if user_prompt = "" then s
  else { s with
         grade_my_prompt_result := some result,
         grade_my_prompt_graded := true,
         analysis_history := (mkHistoryEntry user_prompt result timestamp :: s.analysis_history).take 10 }

/-- A challenge in the `Ungraded` state of the specification: a scenario is
present and not yet graded. -/
def ChallengeUngraded (s : SessionState) : Prop :=
  s.challenge_scenario.isSome = true ∧ s.challenge_graded = false

/-- A compare exercise in the `QuestionShown` state of the specification. -/
def QuestionShown (s : SessionState) : Prop :=
  s.api_validated = true ∧ s.lesson_selected = some "compare" ∧
  s.quiz_index < QUIZ_LENGTH ∧ s.current_question.isSome = true ∧
  s.show_feedback = false

/-- One full compare round: generate a question, answer it, advance.  A
round is given by the provider response, the random side carrying the
strong prompt, and the user's choice. -/
def quiz_round (rd : String × String × String) (s : SessionState) : SessionState :=
  next_question_click (select_click rd.2.2 (generate_question_click rd.1 rd.2.1 s))

/-- A complete compare run over a list of rounds. -/
def runQuiz (rds : List (String × String × String)) (s : SessionState) : SessionState :=
  rds.foldl (fun t rd => quiz_round rd t) s

/-- Does `sep` match at some position strictly inside `u`, in the list
`u ++ rest`?  Used to locate the first occurrence of a separator. -/
def anyMatchBefore (sep : List Char) : List Char → List Char → Bool
  | [], _ => false
  | a :: u, rest => leadsWith sep (a :: (u ++ rest)) || anyMatchBefore sep u rest

/-! ## Concrete states used to instantiate the theorems -/

/-- A concrete state showing a compare question. -/
def sampleShown : SessionState :=
  { init_session_state with
    api_validated := true, lesson_selected := some "compare",
    current_question := some DEMO_AB_QUESTION, correct_side := some "A" }

/-- A concrete state ready for a compare run. -/
def sampleStart : SessionState :=
  { init_session_state with api_validated := true, lesson_selected := some "compare" }

/-- A concrete graded challenge state. -/
def sampleGraded : SessionState :=
  { init_session_state with
    api_validated := true, lesson_selected := some "challenge",
    challenge_scenario := some DEMO_CHALLENGE,
    challenge_result := some "report", challenge_graded := true }

/-- A concrete state ready for a free analysis. -/
def sampleAnalyze : SessionState :=
  { init_session_state with api_validated := true, lesson_selected := some "grade" }

/-- Ten concrete compare rounds, seven of which are answered correctly
(rounds 4, 7 and 10 pick the side opposite to the strong prompt). -/
def sampleRounds : List (String × String × String) :=
  [("r", "A", "A"), ("r", "A", "A"), ("r", "B", "B"), ("r", "B", "A"),
   ("r", "A", "A"), ("r", "B", "B"), ("r", "A", "B"), ("r", "B", "B"),
   ("r", "A", "A"), ("r", "B", "A")]

/-! ## Lemmas on the string primitives -/

theorem leadsWith_nil_right {sep : List Char} (h : leadsWith sep [] = true) : sep = [] := by
  cases sep with
  | nil => rfl
  | cons c cs => simp [leadsWith] at h

theorem contains_of_leadsWith {sep l : List Char} (h : leadsWith sep l = true) :
    containsSubL sep l = true := by
  cases l with
  | nil => simpa [containsSubL] using h
  | cons a s => simp [containsSubL, h]

theorem takeUntil_of_not_contains {sep l : List Char} (h : containsSubL sep l = false) :
    takeUntilL sep l = l := by
  induction l with
  | nil => rfl
  | cons a s ih =>
    simp only [containsSubL, Bool.or_eq_false_iff] at h
    simp [takeUntilL, h.1, ih h.2]

theorem afterFirst_length_lt {sep l : List Char} (hne : sep ≠ [])
    (h : containsSubL sep l = true) : (afterFirstL sep l).length < l.length := by
  induction l with
  | nil =>
    exact absurd (leadsWith_nil_right (by simpa [containsSubL] using h)) hne
  | cons a s ih =>
    by_cases h1 : leadsWith sep (a :: s) = true
    · have hsep : 0 < sep.length := List.length_pos.mpr hne
      simp only [afterFirstL, h1, if_true, List.length_drop, List.length_cons]
      omega
    · simp only [containsSubL, Bool.or_eq_true] at h
      rcases h with h | h
      · exact absurd h h1
      · simp only [afterFirstL, h1, if_false, List.length_cons]
        exact Nat.lt_succ_of_lt (ih h)

theorem pySplitFuel_headD {sep l : List Char} {f : Nat} (hf : l.length < f) :
    (pySplitFuelL sep f l).getD 0 [] = takeUntilL sep l := by
  cases f with
  | zero => omega
  | succ g =>
    by_cases hc : containsSubL sep l = true
    · simp [pySplitFuelL, hc]
    · simp only [Bool.not_eq_true] at hc
      simp [pySplitFuelL, hc, takeUntil_of_not_contains hc]

theorem pySplit_getD_one {sep l : List Char} (hne : sep ≠ [])
    (hc : containsSubL sep l = true) :
    (pySplitL sep l).getD 1 [] = takeUntilL sep (afterFirstL sep l) := by
  have hlt : (afterFirstL sep l).length < l.length := afterFirst_length_lt hne hc
  simp only [pySplitL, pySplitFuelL, hc, if_true, List.getD]
  simpa [List.getD] using pySplitFuel_headD hlt

theorem filter_dropWhile_of {p q : Char → Bool} (hpq : ∀ c, q c = true → p c = false)
    (l : List Char) : (l.dropWhile q).filter p = l.filter p := by
  induction l with
  | nil => rfl
  | cons a s ih =>
    by_cases ha : q a = true
    · rw [List.dropWhile_cons_of_pos ha, ih, List.filter_cons_of_neg]
      simp [hpq a ha]
    · rw [List.dropWhile_cons_of_neg ha]

theorem ws_not_digit : ∀ c : Char, isPyWs c = true → c.isDigit = false := by
  intro c h
  simp only [isPyWs, Bool.or_eq_true, beq_iff_eq] at h
  rcases h with ((((h | h) | h) | h) | h) | h <;> subst h <;> rfl

theorem filter_digit_pyStrip (l : List Char) :
    (pyStripL l).filter Char.isDigit = l.filter Char.isDigit := by
  simp only [pyStripL, rstripL, lstripL]
  rw [List.filter_reverse, filter_dropWhile_of ws_not_digit, List.filter_reverse,
    List.reverse_reverse, filter_dropWhile_of ws_not_digit]

theorem pySplit_getD_zero (sep l : List Char) :
    (pySplitL sep l).getD 0 [] = takeUntilL sep l := by
  have h : (pySplitFuelL sep (l.length + 1) l).getD 0 [] = takeUntilL sep l :=
    pySplitFuel_headD (Nat.lt_succ_self l.length)
  simpa [pySplitL] using h

/-! ## Claim C1 -/

/-- C1 (amended): the generation operations never raise; for every provider
response whose cleaned text fails to decode as JSON — malformed or non-JSON
text, including the `Error: ...` text produced by a failed provider call —
they return exactly the fixed demo record of their kind, byte-for-byte the
demo-mode result; a response that does decode as JSON is returned as
decoded, even when it carries the wrong field set (no fallback in that
case, contrary to the original claim — see the counterexample). -/
theorem generation_parse_failure_fallback (r : String) :
    (json_loads (clean_response r) = none →
      generate_ab_question false r = DEMO_AB_QUESTION ∧
      generate_challenge false r = DEMO_CHALLENGE) ∧
    (∀ j : Json, json_loads (clean_response r) = some j →
      generate_ab_question false r = j ∧ generate_challenge false r = j) ∧
    generate_ab_question true r = DEMO_AB_QUESTION ∧
    generate_challenge true r = DEMO_CHALLENGE := by
  refine ⟨fun h => ⟨?_, ?_⟩, fun j h => ⟨?_, ?_⟩, rfl, rfl⟩ <;>
    simp [generate_ab_question, generate_challenge, h]

/-- C1 witness: a provider error text is not JSON, so both generators fall
back to their fixed demo record. -/
theorem generation_parse_failure_fallback_witness :
    generate_ab_question false "Error: Invalid API key" = DEMO_AB_QUESTION ∧
    generate_challenge false "Error: Invalid API key" = DEMO_CHALLENGE :=
  (generation_parse_failure_fallback "Error: Invalid API key").1 rfl

/-- C1 counterexample: a syntactically valid JSON response with the wrong
field set is returned as parsed, not replaced by the fixed demo record as
the claim states. -/
theorem generation_wrong_fields_cex :
    generate_ab_question false "\x7b\"foo\": 1\x7d" = Json.obj [("foo", Json.num "1")] ∧
    generate_ab_question false "\x7b\"foo\": 1\x7d" ≠ DEMO_AB_QUESTION := by
  refine ⟨rfl, ?_⟩
  rw [show generate_ab_question false "\x7b\"foo\": 1\x7d" = Json.obj [("foo", Json.num "1")] from rfl]
  intro h
  have h2 := congrArg (fun j => jGet j "scenario") h
  simp [jGet, DEMO_AB_QUESTION] at h2

/-! ## Claim C2 -/

/-- C2 (amended): for every report string, score extraction takes the text
after the first `"TOTAL:"`, truncated at the next occurrence of `"TOTAL:"`
(if any) and then at the next `"/"`, keeps only decimal digits in order and
parses them; if the marker is absent or no digit remains the result is
absent, and the total model never raises.  The three example evaluations of
the claim all hold. -/
theorem extract_score_amended_ok :
    (∀ report : String, extract_score report = extract_score_amended report) ∧
    (∀ report : String, containsSubL totalMarkL report.data = false →
      extract_score report = none) ∧
    extract_score "... **TOTAL: 13/20** ..." = some 13 ∧
    extract_score "no total here" = none ∧
    extract_score "TOTAL:  7 /20" = some 7 := by
  refine ⟨fun report => ?_, fun report h => by simp [extract_score, h], by decide, by decide,
    by decide⟩
  by_cases hc : containsSubL totalMarkL report.data = true
  · simp only [extract_score, extract_score_amended, hc, if_true]
    rw [pySplit_getD_one (by decide) hc, pySplit_getD_zero, filter_digit_pyStrip]
  · simp only [Bool.not_eq_true] at hc
    simp [extract_score, extract_score_amended, hc]

/-- C2 witness: the amended description agrees with the source extraction on
a concrete report, and a report without the marker yields no score. -/
theorem extract_score_amended_ok_witness :
    extract_score "| Clarity | 4/5 | TOTAL: 18/20" =
      extract_score_amended "| Clarity | 4/5 | TOTAL: 18/20" ∧
    extract_score "abc" = none :=
  ⟨extract_score_amended_ok.1 "| Clarity | 4/5 | TOTAL: 18/20",
    extract_score_amended_ok.2.1 "abc" (by decide)⟩

/-- C2 counterexample: on a report with a second `"TOTAL:"` before the next
`"/"`, the source truncates at the second marker and yields 1, while the
claimed algorithm reads up to the slash and yields 12. -/
theorem extract_score_claim_cex :
    extract_score "TOTAL: 1 TOTAL: 2/20" = some 1 ∧
    extract_score_claim "TOTAL: 1 TOTAL: 2/20" = some 12 ∧
    extract_score "TOTAL: 1 TOTAL: 2/20" ≠ extract_score_claim "TOTAL: 1 TOTAL: 2/20" := by
  refine ⟨by decide, by decide, by decide⟩

/-! ## Frame lemmas: no compare, challenge or mode-switch operation touches
the analysis history -/

theorem history_generate_question (a b : String) (s : SessionState) :
    (generate_question_click a b s).analysis_history = s.analysis_history := by
  unfold generate_question_click
  repeat' split
  all_goals rfl

theorem history_select (c : String) (s : SessionState) :
    (select_click c s).analysis_history = s.analysis_history := by
  unfold select_click handle_answer
  repeat' split
  all_goals rfl

theorem history_next_question (s : SessionState) :
    (next_question_click s).analysis_history = s.analysis_history := by
  unfold next_question_click advance_quiz
  repeat' split
  all_goals rfl

theorem history_reset (s : SessionState) :
    (reset_quiz s).analysis_history = s.analysis_history := rfl

theorem history_generate_challenge (a : String) (s : SessionState) :
    (generate_challenge_click a s).analysis_history = s.analysis_history := by
  unfold generate_challenge_click
  repeat' split
  all_goals rfl

theorem history_challenge_submit (a b : String) (s : SessionState) :
    (challenge_submit_click a b s).analysis_history = s.analysis_history := by
  unfold challenge_submit_click
  repeat' split
  all_goals rfl

theorem history_next_challenge (s : SessionState) :
    (next_challenge_click s).analysis_history = s.analysis_history := by
  unfold next_challenge_click
  repeat' split
  all_goals rfl

theorem history_switch_mode (s : SessionState) :
    (switch_mode_click s).analysis_history = s.analysis_history := by
  unfold switch_mode_click reset_quiz
  repeat' split
  all_goals rfl

/-- A challenge submission that changes the state can only happen on a
validated, active, ungraded challenge with a non-empty prompt. -/
theorem challenge_submit_changes (s : SessionState) (p r : String)
    (hne : challenge_submit_click p r s ≠ s) :
    s.api_validated = true ∧ s.lesson_selected = some "challenge" ∧
    s.challenge_scenario.isSome = true ∧ p ≠ "" ∧ s.challenge_graded = false := by
  by_cases h1 : s.api_validated = false
  · exact absurd (by simp [challenge_submit_click, h1]) hne
  by_cases h2 : s.lesson_selected ≠ some "challenge"
  · exact absurd (by simp [challenge_submit_click, h1, h2]) hne
  by_cases h3 : s.challenge_scenario.isNone
  · exact absurd (by simp [challenge_submit_click, h1, h2, h3]) hne
  by_cases h4 : p = ""
  · exact absurd (by simp [challenge_submit_click, h1, h2, h3, h4]) hne
  by_cases h5 : s.challenge_graded
  · exact absurd (by simp [challenge_submit_click, h1, h2, h3, h4, h5]) hne
  refine ⟨by simpa using h1, by simpa using h2, ?_, h4, by simpa using h5⟩
  simp only [Bool.not_eq_true] at h3
  simpa [Option.isNone_eq_false_iff] using h3

/-! ## Claim C3 -/

/-- C3: from a state showing a question with a correct side assigned, the
answer transition records `lastCorrect = (choice == correctSide)`,
increments the score exactly when the choice is correct, and applying the
transition again with the same choice from the resulting state changes
nothing (feedback is shown, so the buttons no longer exist: submission
control makes the transition idempotent, with no double counting). -/
theorem answer_transition_ok (s : SessionState) (q : Json) (side choice : String)
    (hv : s.api_validated = true) (hl : s.lesson_selected = some "compare")
    (hi : s.quiz_index < QUIZ_LENGTH) (hq : s.current_question = some q)
    (hside : s.correct_side = some side) (hf : s.show_feedback = false)
    (_hchoice : choice = "A" ∨ choice = "B") :
    (select_click choice s).last_choice_correct = some (decide (choice = side)) ∧
    (select_click choice s).quiz_score =
      (if choice = side then s.quiz_score + 1 else s.quiz_score) ∧
    (choice = side → (select_click choice s).quiz_score = s.quiz_score + 1) ∧
    (choice ≠ side → (select_click choice s).quiz_score = s.quiz_score) ∧
    select_click choice (select_click choice s) = select_click choice s := by
  have hn := Nat.not_le.mpr hi
  have hsel : select_click choice s = handle_answer choice s := by
    simp [select_click, hv, hl, hq, hf, hn]
  have hidem : select_click choice (handle_answer choice s) = handle_answer choice s := by
    simp [select_click, handle_answer, hv, hl, hq, hn]
  rw [hsel]
  refine ⟨?_, ?_, ?_, ?_, hidem⟩
  · simp [handle_answer, hside]
  · simp [handle_answer, hside]
  · intro h; simp [handle_answer, hside, h]
  · intro h; simp [handle_answer, hside, h]

/-- C3 witness: answering `"A"` on a concrete shown question with correct
side `"A"` scores one point and is idempotent. -/
theorem answer_transition_ok_witness :
    (select_click "A" sampleShown).last_choice_correct = some (decide (("A" : String) = "A")) ∧
    (select_click "A" sampleShown).quiz_score = 1 ∧
    select_click "A" (select_click "A" sampleShown) = select_click "A" sampleShown := by
  have h := answer_transition_ok sampleShown DEMO_AB_QUESTION "A" "A" rfl rfl (by decide)
    rfl rfl rfl (Or.inl rfl)
  exact ⟨h.1, by rw [h.2.2.1 rfl]; rfl, h.2.2.2.2⟩

/-! ## Claim C4 -/

/-- C4: a grading action in the free-analysis exercise inserts exactly one
entry at the front of the history; the history never exceeds 10 entries,
and inserting into a full history drops the oldest entry (FIFO); no
compare, challenge or mode-switch operation changes the history. -/
theorem history_bounded_fifo (s : SessionState) (p result ts : String)
    (hv : s.api_validated = true) (hl : s.lesson_selected = some "grade")
    (hg : s.grade_my_prompt_graded = false) (hp : p ≠ "") :
    (analyze_submit_click p result ts s).analysis_history.length ≤ 10 ∧
    (analyze_submit_click p result ts s).analysis_history.head? =
      some (mkHistoryEntry p result ts) ∧
    (s.analysis_history.length < 10 →
      (analyze_submit_click p result ts s).analysis_history =
        mkHistoryEntry p result ts :: s.analysis_history) ∧
    (s.analysis_history.length = 10 →
      (analyze_submit_click p result ts s).analysis_history =
        mkHistoryEntry p result ts :: s.analysis_history.dropLast) ∧
    (∀ (s2 : SessionState) (a b c : String),
      (generate_question_click a b s2).analysis_history = s2.analysis_history ∧
      (select_click c s2).analysis_history = s2.analysis_history ∧
      (next_question_click s2).analysis_history = s2.analysis_history ∧
      (reset_quiz s2).analysis_history = s2.analysis_history ∧
      (generate_challenge_click a s2).analysis_history = s2.analysis_history ∧
      (challenge_submit_click a b s2).analysis_history = s2.analysis_history ∧
      (next_challenge_click s2).analysis_history = s2.analysis_history ∧
      (switch_mode_click s2).analysis_history = s2.analysis_history) := by
  have hred : (analyze_submit_click p result ts s).analysis_history =
      (mkHistoryEntry p result ts :: s.analysis_history).take 10 := by
    simp [analyze_submit_click, hv, hl, hg, hp]
  refine ⟨?_, ?_, ?_, ?_, ?_⟩
  · rw [hred]; simp [List.length_take]
  · rw [hred]; rfl
  · intro hlt
    rw [hred]
    exact List.take_of_length_le (by simp only [List.length_cons]; omega)
  · intro hlen
    rw [hred, List.take_succ_cons, List.dropLast_eq_take, hlen]
  · intro s2 a b c
    exact ⟨history_generate_question a b s2, history_select c s2, history_next_question s2,
      history_reset s2, history_generate_challenge a s2, history_challenge_submit a b s2,
      history_next_challenge s2, history_switch_mode s2⟩

/-- C4 witness: one concrete grading action starting from an empty history
produces exactly the one-entry history. -/
theorem history_bounded_fifo_witness :
    (analyze_submit_click "p" "TOTAL: 13/20" "12:00:00" sampleAnalyze).analysis_history =
      [mkHistoryEntry "p" "TOTAL: 13/20" "12:00:00"] :=
  (history_bounded_fifo sampleAnalyze "p" "TOTAL: 13/20" "12:00:00" rfl rfl rfl
    (by decide)).2.2.1 (by decide)

/-! ## Claim C6 -/

/-- C6: a graded challenge accepts no second grading (the submit transition
is the identity there, and in general a submission only changes the state
from a validated, ungraded challenge with a scenario present); moving on
clears the scenario, which is not the `Ungraded` state, and only generating
a fresh scenario reaches `Ungraded` again. -/
theorem challenge_single_grading (s : SessionState) (c : Json)
    (hv : s.api_validated = true) (hl : s.lesson_selected = some "challenge")
    (hs : s.challenge_scenario = some c) (hg : s.challenge_graded = true) :
    (∀ p r : String, challenge_submit_click p r s = s) ∧
    (∀ resp : String, generate_challenge_click resp s = s) ∧
    (next_challenge_click s).challenge_scenario = none ∧
    (next_challenge_click s).challenge_graded = false ∧
    ¬ ChallengeUngraded (next_challenge_click s) ∧
    (∀ resp : String, ChallengeUngraded (generate_challenge_click resp (next_challenge_click s))) ∧
    (∀ (s2 : SessionState) (p r : String), challenge_submit_click p r s2 ≠ s2 →
      s2.challenge_graded = false ∧ s2.challenge_scenario.isSome = true) := by
  have hnext : next_challenge_click s =
      { s with challenge_scenario := none, challenge_result := none, challenge_graded := false } := by
    simp [next_challenge_click, hv, hl, hs, hg]
  refine ⟨fun p r => by simp [challenge_submit_click, hg], fun resp => ?_, ?_, ?_, ?_, fun resp => ?_, ?_⟩
  · simp [generate_challenge_click, hs]
  · rw [hnext]
  · rw [hnext]
  · rw [hnext]
    intro h
    simpa [ChallengeUngraded] using h.1
  · rw [hnext]
    constructor
    · simp [generate_challenge_click, hv, hl]
    · simp [generate_challenge_click, hv, hl]
  · intro s2 p r hne
    have h := challenge_submit_changes s2 p r hne
    exact ⟨h.2.2.2.2, h.2.2.1⟩

/-- C6 witness: on a concrete graded challenge, resubmission is a no-op and
a fresh scenario after moving on is again ungraded. -/
theorem challenge_single_grading_witness :
    challenge_submit_click "my prompt" "report2" sampleGraded = sampleGraded ∧
    ChallengeUngraded (generate_challenge_click "resp" (next_challenge_click sampleGraded)) := by
  have h := challenge_single_grading sampleGraded DEMO_CHALLENGE rfl rfl rfl rfl
  exact ⟨h.1 "my prompt" "report2", h.2.2.2.2.2.1 "resp"⟩

/-! ## Claim C8 -/

/-- C8: switching to a different provider stores the new provider, clears
the validation flag and erases the stored credential, so a credential is
never carried over between providers. -/
theorem provider_switch_clears_credential (s : SessionState) (p : String)
    (h : p ≠ s.api_provider) :
    (select_provider p s).api_provider = p ∧
    (select_provider p s).api_validated = false ∧
    (select_provider p s).api_key = "" := by
  simp [select_provider, h]

/-- C8 witness: switching the initial state from OpenAI to Gemini clears the
key and the validation flag. -/
theorem provider_switch_clears_credential_witness :
    (select_provider "Gemini" init_session_state).api_provider = "Gemini" ∧
    (select_provider "Gemini" init_session_state).api_validated = false ∧
    (select_provider "Gemini" init_session_state).api_key = "" :=
  provider_switch_clears_credential init_session_state "Gemini" (by decide)

/-! ## Claim C9 -/

/-- C9: switching the active exercise resets the whole compare quiz state,
clears the challenge and free-analysis transient state, and leaves the
analysis history (and the session configuration) unchanged. -/
theorem switch_mode_frame (s : SessionState) (m : String)
    (h : s.lesson_selected = some m) :
    (switch_mode_click s).quiz_score = 0 ∧
    (switch_mode_click s).quiz_index = 0 ∧
    (switch_mode_click s).module_unlocked = false ∧
    (switch_mode_click s).show_feedback = false ∧
    (switch_mode_click s).last_choice_correct = none ∧
    (switch_mode_click s).last_explanation = "" ∧
    (switch_mode_click s).current_question = none ∧
    (switch_mode_click s).correct_side = none ∧
    (switch_mode_click s).challenge_scenario = none ∧
    (switch_mode_click s).challenge_result = none ∧
    (switch_mode_click s).challenge_graded = false ∧
    (switch_mode_click s).grade_my_prompt_result = none ∧
    (switch_mode_click s).grade_my_prompt_graded = false ∧
    (switch_mode_click s).analysis_history = s.analysis_history ∧
    (switch_mode_click s).api_key = s.api_key ∧
    (switch_mode_click s).api_provider = s.api_provider ∧
    (switch_mode_click s).demo_mode = s.demo_mode ∧
    (switch_mode_click s).api_validated = s.api_validated := by
  simp [switch_mode_click, reset_quiz, h]

/-- C9 witness: switching away from a concrete shown-question state resets
the quiz and keeps the (empty) history. -/
theorem switch_mode_frame_witness :
    (switch_mode_click sampleShown).current_question = none ∧
    (switch_mode_click sampleShown).analysis_history = sampleShown.analysis_history ∧
    (switch_mode_click sampleShown).api_validated = sampleShown.api_validated := by
  have h := switch_mode_frame sampleShown "compare" rfl
  exact ⟨h.2.2.2.2.2.2.1, h.2.2.2.2.2.2.2.2.2.2.2.2.2.1, h.2.2.2.2.2.2.2.2.2.2.2.2.2.2.2.2.2⟩

/-! ## Claim C10 -/

/-- C10: turning demo mode on marks the credential as validated (all three
exercises pass their `api_validated` gate with no credential and no
connection test), and turning it off clears the validation flag again. -/
theorem demo_toggle_validation (s : SessionState) :
    (s.demo_mode = false →
      (toggle_demo_click true s).api_validated = true ∧
      (toggle_demo_click true s).demo_mode = true) ∧
    (s.demo_mode = true →
      (toggle_demo_click false s).api_validated = false ∧
      (toggle_demo_click false s).demo_mode = false) := by
  constructor <;> intro h <;> simp [toggle_demo_click, h]

/-- C10 witness: toggling demo mode on from the initial state validates the
session; toggling it off again invalidates it. -/
theorem demo_toggle_validation_witness :
    (toggle_demo_click true init_session_state).api_validated = true ∧
    (toggle_demo_click false (toggle_demo_click true init_session_state)).api_validated = false := by
  refine ⟨((demo_toggle_validation init_session_state).1 rfl).1, ?_⟩
  exact ((demo_toggle_validation (toggle_demo_click true init_session_state)).2
    ((demo_toggle_validation init_session_state).1 rfl).2).1

/-! ## Lemmas for the complete compare run -/

/-- One compare round on a fresh in-progress state: generate, answer,
advance, collapsed to a single state update. -/
theorem quiz_round_spec (resp side choice : String) (s : SessionState)
    (hv : s.api_validated = true) (hl : s.lesson_selected = some "compare")
    (hq : s.current_question = none) (hf : s.show_feedback = false)
    (hi : s.quiz_index < QUIZ_LENGTH) :
    quiz_round (resp, side, choice) s =
      { s with
        quiz_index := s.quiz_index + 1,
        quiz_score := if choice = side then s.quiz_score + 1 else s.quiz_score,
        module_unlocked := if QUIZ_LENGTH ≤ s.quiz_index + 1 then true else s.module_unlocked,
        show_feedback := false, last_choice_correct := none, last_explanation := "",
        current_question := none, correct_side := none } := by
  obtain ⟨ak, ap, dm, av, ls, qs, qi, mu, sf, lcc, le, cq, cs2, chs, chr, chg, gm, gmr, gmg, ah⟩ := s
  simp only at hv hl hq hf hi
  subst hv hl hq hf
  simp [quiz_round, generate_question_click, select_click, next_question_click,
    handle_answer, advance_quiz, Nat.not_le.mpr hi]

/-- A compare run over any list of rounds that fits in the remaining
quiz: the score counts the correct choices, the index advances by one per
round, the per-question state ends fresh, and the run that exactly reaches
`QUIZ_LENGTH` unlocks the completion state. -/
theorem runQuiz_spec (rds : List (String × String × String)) :
    ∀ s : SessionState, s.api_validated = true → s.lesson_selected = some "compare" →
    s.current_question = none → s.show_feedback = false →
    s.quiz_index + rds.length ≤ QUIZ_LENGTH →
    (runQuiz rds s).quiz_score =
      s.quiz_score + rds.countP (fun rd => decide (rd.2.2 = rd.2.1)) ∧
    (runQuiz rds s).quiz_index = s.quiz_index + rds.length ∧
    (runQuiz rds s).current_question = none ∧
    (runQuiz rds s).show_feedback = false ∧
    (runQuiz rds s).api_validated = true ∧
    (runQuiz rds s).lesson_selected = some "compare" ∧
    (rds ≠ [] → s.quiz_index + rds.length = QUIZ_LENGTH →
      (runQuiz rds s).module_unlocked = true) := by
  induction rds with
  | nil =>
    intro s hv hl hq hf hlen
    simp [runQuiz, hv, hl, hq, hf]
  | cons rd rest ih =>
    intro s hv hl hq hf hlen
    obtain ⟨resp, side, choice⟩ := rd
    simp only [List.length_cons] at hlen
    have hi : s.quiz_index < QUIZ_LENGTH := by omega
    have hrun : runQuiz ((resp, side, choice) :: rest) s =
        runQuiz rest (quiz_round (resp, side, choice) s) := rfl
    rw [hrun, quiz_round_spec resp side choice s hv hl hq hf hi]
    have ihs := ih
      { s with
        quiz_index := s.quiz_index + 1,
        quiz_score := if choice = side then s.quiz_score + 1 else s.quiz_score,
        module_unlocked := if QUIZ_LENGTH ≤ s.quiz_index + 1 then true else s.module_unlocked,
        show_feedback := false, last_choice_correct := none, last_explanation := "",
        current_question := none, correct_side := none }
      hv hl rfl rfl (by show s.quiz_index + 1 + rest.length ≤ QUIZ_LENGTH; omega)
    obtain ⟨i1, i2, i3, i4, i5, i6, i7⟩ := ihs
    refine ⟨?_, ?_, i3, i4, i5, i6, ?_⟩
    · rw [i1]
      show (if choice = side then s.quiz_score + 1 else s.quiz_score) + _ = _
      by_cases hcs : choice = side
      · simp [hcs, List.countP_cons]
        omega
      · simp [hcs, List.countP_cons]
    · rw [i2]
      show s.quiz_index + 1 + rest.length = s.quiz_index + (rest.length + 1)
      omega
    · intro _ hsum
      simp only [List.length_cons] at hsum
      cases rest with
      | nil =>
        show (if QUIZ_LENGTH ≤ s.quiz_index + 1 then true else s.module_unlocked) = true
        rw [if_pos (by simp at hsum; omega)]
      | cons r2 rs =>
        exact i7 (List.cons_ne_nil r2 rs)
          (by show s.quiz_index + 1 + (r2 :: rs).length = QUIZ_LENGTH; omega)

/-- The generate action is the identity on a completed quiz. -/
theorem generate_question_complete (a b : String) (s : SessionState)
    (h : QUIZ_LENGTH ≤ s.quiz_index) : generate_question_click a b s = s := by
  unfold generate_question_click
  repeat' split
  all_goals rfl

/-- The answer action is the identity on a completed quiz. -/
theorem select_complete (c : String) (s : SessionState)
    (h : QUIZ_LENGTH ≤ s.quiz_index) : select_click c s = s := by
  unfold select_click
  repeat' split
  all_goals rfl

/-- The advance action is the identity on a completed quiz. -/
theorem next_question_complete (s : SessionState)
    (h : QUIZ_LENGTH ≤ s.quiz_index) : next_question_click s = s := by
  unfold next_question_click
  repeat' split
  all_goals rfl

/-- No compare transition decreases the quiz index. -/
theorem quiz_index_monotone (a b c : String) (s : SessionState) :
    s.quiz_index ≤ (generate_question_click a b s).quiz_index ∧
    s.quiz_index ≤ (select_click c s).quiz_index ∧
    s.quiz_index ≤ (next_question_click s).quiz_index := by
  refine ⟨?_, ?_, ?_⟩
  · unfold generate_question_click
    repeat' split
    all_goals simp
  · unfold select_click handle_answer
    repeat' split
    all_goals simp
  · unfold next_question_click advance_quiz
    repeat' split
    all_goals simp

/-! ## Claim C5 -/

/-- C5: a complete compare run of `QUIZ_LENGTH = 10` rounds, started on a
fresh quiz, ends with `index = QUIZ_LENGTH` in the completed state, and the
final score is exactly the number of rounds whose choice equals the correct
side; on a completed quiz, every compare transition other than the reset is
the identity (so the completed state cannot be left), and no compare
transition ever decreases the index. -/
theorem compare_run_complete :
    (∀ (rds : List (String × String × String)) (s : SessionState),
      s.api_validated = true → s.lesson_selected = some "compare" →
      s.quiz_index = 0 → s.quiz_score = 0 → s.current_question = none →
      s.show_feedback = false → rds.length = QUIZ_LENGTH →
      (runQuiz rds s).quiz_index = QUIZ_LENGTH ∧
      (runQuiz rds s).module_unlocked = true ∧
      (runQuiz rds s).quiz_score = rds.countP (fun rd => decide (rd.2.2 = rd.2.1))) ∧
    (∀ (s : SessionState) (a b c : String), QUIZ_LENGTH ≤ s.quiz_index →
      generate_question_click a b s = s ∧ select_click c s = s ∧
      next_question_click s = s) ∧
    (∀ (s : SessionState) (a b c : String),
      s.quiz_index ≤ (generate_question_click a b s).quiz_index ∧
      s.quiz_index ≤ (select_click c s).quiz_index ∧
      s.quiz_index ≤ (next_question_click s).quiz_index) := by
  refine ⟨?_, ?_, fun s a b c => quiz_index_monotone a b c s⟩
  · intro rds s hv hl hi0 hs0 hq hf hlen
    have h := runQuiz_spec rds s hv hl hq hf (by omega)
    refine ⟨by rw [h.2.1]; omega, ?_, by rw [h.1, hs0]; omega⟩
    refine h.2.2.2.2.2.2 ?_ (by omega)
    intro hnil
    rw [hnil] at hlen
    simp [QUIZ_LENGTH] at hlen
  · intro s a b c h
    exact ⟨generate_question_complete a b s h, select_complete c s h,
      next_question_complete s h⟩

/-- C5 witness: the concrete ten-round run with seven correct answers ends
completed with score 7, and from the resulting completed state the compare
transitions change nothing. -/
theorem compare_run_complete_witness :
    (runQuiz sampleRounds sampleStart).quiz_index = QUIZ_LENGTH ∧
    (runQuiz sampleRounds sampleStart).module_unlocked = true ∧
    (runQuiz sampleRounds sampleStart).quiz_score = 7 ∧
    select_click "A" (runQuiz sampleRounds sampleStart) = runQuiz sampleRounds sampleStart := by
  have h := compare_run_complete.1 sampleRounds sampleStart rfl rfl rfl rfl rfl rfl rfl
  have h2 := (compare_run_complete.2.1 (runQuiz sampleRounds sampleStart) "a" "b" "A"
    (le_of_eq h.1.symm)).2.1
  exact ⟨h.1, h.2.1, by rw [h.2.2]; decide, h2⟩

/-! ## Lemmas on the fence clean-up -/

theorem leadsWith_fence_elim {l : List Char} (h : leadsWith fenceL l = true) :
    ∃ l2, l = bq :: bq :: bq :: l2 := by
  rcases l with _ | ⟨a, _ | ⟨b, _ | ⟨c, l3⟩⟩⟩
  · simp [fenceL, leadsWith] at h
  · simp only [fenceL, leadsWith] at h
    split at h <;> simp at h
  · simp only [fenceL, leadsWith] at h
    split at h
    · split at h <;> simp at h
    · simp at h
  · simp only [fenceL, leadsWith] at h
    split_ifs at h with h1 h2 h3
    · exact ⟨l3, by rw [← h1, ← h2, ← h3]⟩

theorem leadsWith_fence_cons_ne {c : Char} (l : List Char) (h : ¬(c = bq)) :
    leadsWith fenceL (c :: l) = false := by
  by_contra hx
  simp only [Bool.not_eq_false] at hx
  obtain ⟨l2, hl⟩ := leadsWith_fence_elim hx
  injection hl with h1 _
  exact h h1

theorem leadsWith_tag_cons_ne {c : Char} (l : List Char) (h : ¬('j' = c)) :
    leadsWith jsonTagL (c :: l) = false := by
  simp only [jsonTagL, leadsWith, if_neg h]

theorem anyMatchBefore_append (sep x y rest : List Char) :
    anyMatchBefore sep (x ++ y) rest =
      (anyMatchBefore sep x (y ++ rest) || anyMatchBefore sep y rest) := by
  induction x with
  | nil => simp [anyMatchBefore]
  | cons a xs ih =>
    simp only [List.cons_append, anyMatchBefore, List.append_assoc, List.append_eq, ih,
      Bool.or_assoc]

theorem anyMatchBefore_tag (rest : List Char) :
    anyMatchBefore fenceL (['j', 's', 'o', 'n', '\n'] : List Char) rest = false := by
  simp only [anyMatchBefore, List.cons_append, List.nil_append]
  rw [leadsWith_fence_cons_ne _ (by decide), leadsWith_fence_cons_ne _ (by decide),
    leadsWith_fence_cons_ne _ (by decide), leadsWith_fence_cons_ne _ (by decide),
    leadsWith_fence_cons_ne _ (by decide)]
  rfl

theorem anyMatchBefore_nl (rest : List Char) :
    anyMatchBefore fenceL (['\n'] : List Char) rest = false := by
  simp only [anyMatchBefore, List.nil_append]
  rw [leadsWith_fence_cons_ne _ (by decide)]
  rfl

/-- Inside `t ++ '\n' :: z`, the fence cannot match at any position of a
fence-free `t`: a match would either lie inside `t` or collide with the
`'\n'` boundary. -/
theorem anyMatchBefore_of_noFence (t z : List Char)
    (hc : containsSubL fenceL t = false) :
    anyMatchBefore fenceL t ('\n' :: z) = false := by
  induction t with
  | nil => rfl
  | cons a t' ih =>
    simp only [containsSubL, Bool.or_eq_false_iff] at hc
    obtain ⟨hlw, hc'⟩ := hc
    simp only [anyMatchBefore, Bool.or_eq_false_iff]
    refine ⟨?_, ih hc'⟩
    by_contra hx
    simp only [Bool.not_eq_false] at hx
    obtain ⟨l2, hl⟩ := leadsWith_fence_elim hx
    injection hl with ha htail
    rcases t' with _ | ⟨b, t2⟩
    · simp only [List.nil_append] at htail
      injection htail with h1 _
      exact absurd h1.symm (by decide)
    · simp only [List.cons_append] at htail
      injection htail with hb htail2
      rcases t2 with _ | ⟨c, t3⟩
      · simp only [List.nil_append] at htail2
        injection htail2 with h1 _
        exact absurd h1.symm (by decide)
      · simp only [List.cons_append] at htail2
        injection htail2 with hc2 _
        subst ha hb hc2
        simp [fenceL, leadsWith] at hlw

/-- `takeUntilL` keeps exactly the part before a first match of the
separator. -/
theorem takeUntil_firstMatch (sep : List Char) (hne : sep ≠ []) :
    ∀ u rest : List Char, anyMatchBefore sep u rest = false →
    leadsWith sep rest = true → takeUntilL sep (u ++ rest) = u := by
  intro u
  induction u with
  | nil =>
    intro rest h1 h2
    simp only [List.nil_append]
    rcases rest with _ | ⟨a, rs⟩
    · exact absurd (leadsWith_nil_right h2) hne
    · simp [takeUntilL, h2]
  | cons a u' ih =>
    intro rest h1 h2
    simp only [anyMatchBefore, Bool.or_eq_false_iff] at h1
    simp only [List.cons_append, takeUntilL, List.append_eq]
    rw [if_neg (by simp [h1.1]), ih rest h1.2 h2]

theorem leadsWith_append_left {sep x : List Char} (y : List Char)
    (h : leadsWith sep x = true) : leadsWith sep (x ++ y) = true := by
  induction sep generalizing x with
  | nil => rfl
  | cons a as2 ih =>
    rcases x with _ | ⟨b, bs⟩
    · simp [leadsWith] at h
    · simp only [leadsWith] at h
      split at h
      · simp only [List.cons_append, leadsWith]
        rw [if_pos (by assumption)]
        exact ih h
      · simp at h

theorem contains_nil_sep (l : List Char) : containsSubL [] l = true := by
  cases l <;> rfl

theorem contains_append_left {sep x : List Char} (y : List Char)
    (h : containsSubL sep x = true) : containsSubL sep (x ++ y) = true := by
  induction x with
  | nil =>
    have := leadsWith_nil_right (by simpa [containsSubL] using h)
    subst this
    exact contains_nil_sep _
  | cons a xs ih =>
    simp only [containsSubL, Bool.or_eq_true] at h
    rcases h with h | h
    · simp only [List.cons_append, containsSubL, Bool.or_eq_true]
      exact Or.inl (by simpa [List.cons_append] using leadsWith_append_left y h)
    · simp only [List.cons_append, containsSubL, Bool.or_eq_true]
      exact Or.inr (ih h)

theorem contains_append_right {sep y : List Char} (x : List Char)
    (h : containsSubL sep y = true) : containsSubL sep (x ++ y) = true := by
  induction x with
  | nil => simpa using h
  | cons a xs ih =>
    simp only [List.cons_append, containsSubL, Bool.or_eq_true]
    exact Or.inr ih

theorem contains_of_dropWhile {sep : List Char} (p : Char → Bool) (l : List Char)
    (h : containsSubL sep (l.dropWhile p) = true) : containsSubL sep l = true := by
  induction l with
  | nil => simpa using h
  | cons a s ih =>
    by_cases hp : p a = true
    · rw [List.dropWhile_cons_of_pos hp] at h
      simp only [containsSubL, Bool.or_eq_true]
      exact Or.inr (ih h)
    · rwa [List.dropWhile_cons_of_neg (by simpa using hp)] at h

/-- Every list splits as its right-strip followed by trailing whitespace. -/
theorem rstrip_append_rest (l : List Char) :
    rstripL l ++ (l.reverse.takeWhile isPyWs).reverse = l := by
  unfold rstripL
  rw [← List.reverse_append, List.takeWhile_append_dropWhile, List.reverse_reverse]

theorem contains_of_rstrip {sep l : List Char}
    (h : containsSubL sep (rstripL l) = true) : containsSubL sep l = true := by
  have := contains_append_left (l.reverse.takeWhile isPyWs).reverse h
  rwa [rstrip_append_rest] at this

theorem contains_of_pyStrip {sep l : List Char}
    (h : containsSubL sep (pyStripL l) = true) : containsSubL sep l = true :=
  contains_of_dropWhile isPyWs l (contains_of_rstrip h)

theorem dropWhile_dropWhile (p : Char → Bool) (l : List Char) :
    (l.dropWhile p).dropWhile p = l.dropWhile p := by
  induction l with
  | nil => rfl
  | cons a s ih =>
    by_cases h : p a = true
    · rw [List.dropWhile_cons_of_pos h]
      exact ih
    · rw [List.dropWhile_cons_of_neg (by simpa using h),
        List.dropWhile_cons_of_neg (by simpa using h)]

theorem rstrip_idem (l : List Char) : rstripL (rstripL l) = rstripL l := by
  unfold rstripL
  rw [List.reverse_reverse, dropWhile_dropWhile]

theorem lstrip_rstrip_of_lstripped {z : List Char} (h : lstripL z = z) :
    lstripL (rstripL z) = rstripL z := by
  cases hrz : rstripL z with
  | nil => rfl
  | cons b r2 =>
    have hz := rstrip_append_rest z
    rw [hrz] at hz
    have hb : isPyWs b = false := by
      rcases hz2 : z with _ | ⟨a, t⟩
      · rw [hz2] at hz; simp at hz
      · rw [hz2] at hz
        have hab : b = a := by
          have := hz
          simp only [List.cons_append] at this
          injection this
        subst hab
        rw [hz2] at h
        by_contra hws
        simp only [Bool.not_eq_false] at hws
        rw [lstripL, List.dropWhile_cons_of_pos hws] at h
        have hlen := congrArg List.length h
        have hle : (t.dropWhile isPyWs).length ≤ t.length :=
          (List.dropWhile_sublist isPyWs).length_le
        simp at hlen
        omega
    exact List.dropWhile_cons_of_neg (by simp [hb])

theorem pyStrip_idem (l : List Char) : pyStripL (pyStripL l) = pyStripL l := by
  unfold pyStripL
  rw [lstrip_rstrip_of_lstripped
    (show lstripL (lstripL l) = lstripL l from dropWhile_dropWhile isPyWs l), rstrip_idem]

theorem rstrip_append_ws {c : Char} (hc : isPyWs c = true) (x : List Char) :
    rstripL (x ++ [c]) = rstripL x := by
  unfold rstripL
  rw [List.reverse_append]
  simp only [List.reverse_cons, List.reverse_nil, List.nil_append, List.singleton_append]
  rw [List.dropWhile_cons_of_pos hc]

theorem pyStrip_wrap_nl (t : List Char) :
    pyStripL ('\n' :: (t ++ ['\n'])) = pyStripL t := by
  unfold pyStripL
  rw [show lstripL ('\n' :: (t ++ ['\n'])) = lstripL (t ++ ['\n']) from
    List.dropWhile_cons_of_pos (by decide)]
  induction t with
  | nil => rfl
  | cons a t2 ih =>
    by_cases h : isPyWs a = true
    · rw [show lstripL ((a :: t2) ++ ['\n']) = lstripL (t2 ++ ['\n']) from
        List.dropWhile_cons_of_pos h,
        show lstripL (a :: t2) = lstripL t2 from List.dropWhile_cons_of_pos h]
      exact ih
    · rw [show lstripL ((a :: t2) ++ ['\n']) = (a :: t2) ++ ['\n'] from
        List.dropWhile_cons_of_neg (by simpa using h),
        show lstripL (a :: t2) = a :: t2 from List.dropWhile_cons_of_neg (by simpa using h)]
      exact rstrip_append_ws (by decide) (a :: t2)

theorem pyStrip_fence (u : List Char) :
    pyStripL (bq :: bq :: bq :: (u ++ fenceL)) = bq :: bq :: bq :: (u ++ fenceL) := by
  unfold pyStripL
  rw [show lstripL (bq :: bq :: bq :: (u ++ fenceL)) = bq :: bq :: bq :: (u ++ fenceL) from
    List.dropWhile_cons_of_neg (by decide)]
  unfold rstripL
  rw [show (bq :: bq :: bq :: (u ++ fenceL)).reverse
      = bq :: bq :: bq :: (u.reverse ++ fenceL) from by simp [fenceL]]
  rw [List.dropWhile_cons_of_neg (by decide)]
  rw [show (bq :: bq :: bq :: (u.reverse ++ fenceL)).reverse
      = bq :: bq :: bq :: (u ++ fenceL) from by simp [fenceL]]

/-- The clean-up of a fenced response with no fence inside `u`: outer strip
is the identity, the split keeps `u`, the tag is dropped when present, and
the result is stripped. -/
theorem clean_fence_generic (u : List Char)
    (hu : anyMatchBefore fenceL u fenceL = false) :
    cleanL (bq :: bq :: bq :: (u ++ fenceL)) =
      pyStripL (if leadsWith jsonTagL u then u.drop 4 else u) := by
  have hlw : leadsWith fenceL (bq :: bq :: bq :: (u ++ fenceL)) = true := by
    simp [fenceL, leadsWith]
  have hcF := contains_of_leadsWith hlw
  have hstrip := pyStrip_fence u
  have hafter : afterFirstL fenceL (bq :: bq :: bq :: (u ++ fenceL)) = u ++ fenceL := by
    simp only [afterFirstL, hlw, if_true]
    simp [fenceL]
  have hsplit : (pySplitL fenceL (bq :: bq :: bq :: (u ++ fenceL))).getD 1 [] = u := by
    rw [pySplit_getD_one (by decide) hcF, hafter]
    exact takeUntil_firstMatch fenceL (by decide) u fenceL hu (by decide)
  simp only [cleanL, hstrip, hlw, if_true, hsplit]

theorem clean_fenced_tag (td : List Char) (hc : containsSubL fenceL td = false) :
    cleanL (bq :: bq :: bq :: ((['j', 's', 'o', 'n', '\n'] ++ (td ++ ['\n'])) ++ fenceL))
      = pyStripL td := by
  have hu : anyMatchBefore fenceL (['j', 's', 'o', 'n', '\n'] ++ (td ++ ['\n'])) fenceL
      = false := by
    rw [anyMatchBefore_append, anyMatchBefore_tag, anyMatchBefore_append]
    simp only [List.singleton_append]
    rw [anyMatchBefore_of_noFence td fenceL hc, anyMatchBefore_nl]
    rfl
  rw [clean_fence_generic _ hu]
  rw [show leadsWith jsonTagL (['j', 's', 'o', 'n', '\n'] ++ (td ++ ['\n'])) = true from by
    simp [jsonTagL, leadsWith]]
  simp only [if_true]
  rw [show ((['j', 's', 'o', 'n', '\n'] : List Char) ++ (td ++ ['\n'])).drop 4
      = '\n' :: (td ++ ['\n']) from by simp]
  exact pyStrip_wrap_nl td

theorem clean_fenced_notag (td : List Char) (hc : containsSubL fenceL td = false) :
    cleanL (bq :: bq :: bq :: ((['\n'] ++ (td ++ ['\n'])) ++ fenceL)) = pyStripL td := by
  have hu : anyMatchBefore fenceL (['\n'] ++ (td ++ ['\n'])) fenceL = false := by
    rw [anyMatchBefore_append, anyMatchBefore_nl, anyMatchBefore_append]
    simp only [List.singleton_append]
    rw [anyMatchBefore_of_noFence td fenceL hc, anyMatchBefore_nl]
    rfl
  rw [clean_fence_generic _ hu]
  rw [show leadsWith jsonTagL (['\n'] ++ (td ++ ['\n'])) = false from
    leadsWith_tag_cons_ne _ (by decide)]
  simp only [if_false, Bool.false_eq_true]
  exact pyStrip_wrap_nl td

theorem clean_raw (td : List Char) (hc : containsSubL fenceL td = false) :
    cleanL td = pyStripL td := by
  have hlw : leadsWith fenceL (pyStripL td) = false := by
    by_contra hx
    simp only [Bool.not_eq_false] at hx
    have h2 := contains_of_pyStrip (contains_of_leadsWith hx)
    rw [hc] at h2
    exact Bool.false_ne_true h2
  simp only [cleanL, hlw, Bool.false_eq_true, if_false]
  exact pyStrip_idem td

theorem string_data_append (s t : String) : (s ++ t).data = s.data ++ t.data := rfl

/-! ## Claim C7 -/

/-- C7 (amended): for every provider response whose stripped text is a JSON
object carrying the four AB fields as strings, and which does not itself
contain a triple backtick (see the counterexample for why this proviso is
forced), the generator returns exactly the parsed record with all four
fields populated from that JSON and no fallback substitution — for the raw
response as well as for the response wrapped in a triple-backtick fence,
with or without a `json` language tag after the opening fence. -/
theorem wellformed_ab_parsed (t : String) (j : Json) (sc wp sp ex : String)
    (hfence : containsSubL fenceL t.data = false)
    (hparse : json_loads (pyStrip t) = some j)
    (hsc : jGet j "scenario" = some (Json.str sc))
    (hwp : jGet j "weak_prompt" = some (Json.str wp))
    (hsp : jGet j "strong_prompt" = some (Json.str sp))
    (hex : jGet j "explanation" = some (Json.str ex)) :
    generate_ab_question false t = j ∧
    generate_ab_question false ("```\n" ++ t ++ "\n```") = j ∧
    generate_ab_question false ("```json\n" ++ t ++ "\n```") = j ∧
    jGet (generate_ab_question false t) "scenario" = some (Json.str sc) ∧
    jGet (generate_ab_question false t) "weak_prompt" = some (Json.str wp) ∧
    jGet (generate_ab_question false t) "strong_prompt" = some (Json.str sp) ∧
    jGet (generate_ab_question false t) "explanation" = some (Json.str ex) := by
  have hraw : clean_response t = pyStrip t :=
    congrArg String.mk (clean_raw t.data hfence)
  have hdataB : ("```\n" ++ t ++ "\n```").data
      = bq :: bq :: bq :: ((['\n'] ++ (t.data ++ ['\n'])) ++ fenceL) := by
    rw [string_data_append, string_data_append]
    rw [show ("```\n" : String).data = [bq, bq, bq, '\n'] from by decide,
        show ("\n```" : String).data = ['\n', bq, bq, bq] from by decide]
    simp [fenceL, List.append_assoc]
  have hdataT : ("```json\n" ++ t ++ "\n```").data
      = bq :: bq :: bq :: ((['j', 's', 'o', 'n', '\n'] ++ (t.data ++ ['\n'])) ++ fenceL) := by
    rw [string_data_append, string_data_append]
    rw [show ("```json\n" : String).data = [bq, bq, bq, 'j', 's', 'o', 'n', '\n'] from by decide,
        show ("\n```" : String).data = ['\n', bq, bq, bq] from by decide]
    simp [fenceL, List.append_assoc]
  have hclB : clean_response ("```\n" ++ t ++ "\n```") = pyStrip t := by
    unfold clean_response pyStrip
    rw [hdataB, clean_fenced_notag t.data hfence]
  have hclT : clean_response ("```json\n" ++ t ++ "\n```") = pyStrip t := by
    unfold clean_response pyStrip
    rw [hdataT, clean_fenced_tag t.data hfence]
  have h1 : generate_ab_question false t = j := by
    simp [generate_ab_question, hraw, hparse]
  refine ⟨h1, ?_, ?_, ?_, ?_, ?_, ?_⟩
  · simp [generate_ab_question, hclB, hparse]
  · simp [generate_ab_question, hclT, hparse]
  · rw [h1]; exact hsc
  · rw [h1]; exact hwp
  · rw [h1]; exact hsp
  · rw [h1]; exact hex

/-- C7 witness: a concrete AB-schema JSON object is returned as parsed, raw
and wrapped in a `json`-tagged fence. -/
theorem wellformed_ab_parsed_witness :
    generate_ab_question false
        "\x7b\"scenario\": \"s\", \"weak_prompt\": \"w\", \"strong_prompt\": \"p\", \"explanation\": \"e\"\x7d"
      = Json.obj [("scenario", Json.str "s"), ("weak_prompt", Json.str "w"),
          ("strong_prompt", Json.str "p"), ("explanation", Json.str "e")] ∧
    generate_ab_question false
        ("```json\n" ++ "\x7b\"scenario\": \"s\", \"weak_prompt\": \"w\", \"strong_prompt\": \"p\", \"explanation\": \"e\"\x7d" ++ "\n```")
      = Json.obj [("scenario", Json.str "s"), ("weak_prompt", Json.str "w"),
          ("strong_prompt", Json.str "p"), ("explanation", Json.str "e")] := by
  have h := wellformed_ab_parsed
    "\x7b\"scenario\": \"s\", \"weak_prompt\": \"w\", \"strong_prompt\": \"p\", \"explanation\": \"e\"\x7d"
    (Json.obj [("scenario", Json.str "s"), ("weak_prompt", Json.str "w"),
      ("strong_prompt", Json.str "p"), ("explanation", Json.str "e")])
    "s" "w" "p" "e" (by decide) rfl rfl rfl rfl rfl
  exact ⟨h.1, h.2.2.1⟩

/-- C7 counterexample: a fenced response whose inner text is a well-formed
AB-schema JSON object, but whose scenario string contains a triple
backtick — the split truncates at the inner fence, parsing fails, and the
generator substitutes the demo record, contrary to the claim. -/
theorem wellformed_ab_parsed_cex :
    json_loads
        "\x7b\"scenario\": \"a``` b\", \"weak_prompt\": \"w\", \"strong_prompt\": \"p\", \"explanation\": \"e\"\x7d"
      = some (Json.obj [("scenario", Json.str "a``` b"), ("weak_prompt", Json.str "w"),
          ("strong_prompt", Json.str "p"), ("explanation", Json.str "e")]) ∧
    generate_ab_question false
        ("```json\n" ++ "\x7b\"scenario\": \"a``` b\", \"weak_prompt\": \"w\", \"strong_prompt\": \"p\", \"explanation\": \"e\"\x7d" ++ "\n```")
      = DEMO_AB_QUESTION ∧
    Json.obj [("scenario", Json.str "a``` b"), ("weak_prompt", Json.str "w"),
        ("strong_prompt", Json.str "p"), ("explanation", Json.str "e")]
      ≠ DEMO_AB_QUESTION := by
  refine ⟨rfl, rfl, ?_⟩
  intro h
  have h2 := congrArg (fun x => jGet x "scenario") h
  simp [jGet, DEMO_AB_QUESTION] at h2

end PromptDojo
